import Mathlib

/-!
Verification of the mainshock-swarm pairing engine of this repository.

The embedded program is the analysis script `5_swarm.py`: the haversine
great-circle distance (lines 7-20) and the function
`calcola_dettagli_completi_sciami` (lines 22-204), which loads a CSV of
earthquake events, filters a working set, selects mainshocks by magnitude,
scans temporal candidates for each mainshock, applies a spatial radius
threshold via haversine, and writes one output row per qualifying pair.

Embedding conventions:
* Event timestamps are rationals, counted in seconds on a continuous
  timeline (pandas datetimes are exact to the nanosecond; `timedelta(days=W)`
  is `W * 86400` seconds, and `.total_seconds() / (24*60*60)` is exact
  rational division).
* Floating-point numbers (coordinates, magnitudes, distances) are idealised
  as members of a linear ordered field `K`; theorems about the actual
  program instantiate `K := ℝ` with the real haversine, while witnesses
  evaluate the engine at `K := ℚ` with a concrete distance function.  The
  engine takes the distance function as an explicit argument, mirroring the
  call of `haversine` at line 177 of the source.
* `pd.to_numeric(..., errors="coerce")` and `pd.to_datetime(..., errors="coerce")`
  turn unparseable cells into missing values, modelled by `Option`;
  `dropna(subset=...)` then drops any record with a missing required field.
* Python `round(x, n)` rounds half to even; `roundTo` models it exactly on
  the idealised values.
* Python string `.strip()` / `.lower()` are modelled by `strTrim` /
  `strLower` over the character list (structural recursion, so that
  concrete runs evaluate inside the kernel).
-/

/-- Whitespace test used by the model of Python `.strip()`. -/
def isSpaceChar (c : Char) : Bool :=
  c == ' ' || c == '\t' || c == '\n' || c == '\r'

/-- Model of Python `str.lower()` (ASCII case folding, applied per character). -/
def strLower (s : String) : String :=
  String.mk (s.data.map Char.toLower)

/-- Model of Python `str.strip()`: drop leading and trailing whitespace. -/
def strTrim (s : String) : String :=
  String.mk (((s.data.dropWhile isSpaceChar).reverse.dropWhile isSpaceChar).reverse)

/-- Model of the pandas chain `.str.strip().str.lower()` used at source
lines 105 and 111. -/
def normalizeStr (s : String) : String :=
  strLower (strTrim s)

/-- One validated event of the store, as used by the pairing loop: the rows
surviving `dropna(subset=required_cols_for_analysis)` at source line 98.
`time` is in seconds; `depth`, `fault` and `location` stay optional because
the source reads them with `.get(col, None)` (lines 151-152, 173-174). -/
structure Event (K : Type) where
  ID : Int
  time : ℚ
  latitude : K
  longitude : K
  mag : K
  depth : Option K
  type : String
  country : String
  fault : Option String
  location : Option String
deriving DecidableEq

/-- One output record, with exactly the fields appended at source
lines 184-195. -/
structure Row (K : Type) where
  MS_ID : Int
  MS_Time : ℚ
  MS_Lat : K
  MS_Lon : K
  MS_Mag : K
  MS_Depth : Option K
  MS_Country : String
  MS_Fault : Option String
  MS_location : Option String
  CS_ID : Int
  CS_Time : ℚ
  CS_Lat : K
  CS_Lon : K
  CS_Mag : K
  CS_Depth : Option K
  CS_Country : String
  CS_Fault : Option String
  CS_location : Option String
  Days_Before_Exact : ℚ
  Distance_Exact_km : K
deriving DecidableEq

/-- The fixed output header of source lines 121-127. -/
def output_columns : List String :=
  ["MS_ID", "MS_Time", "MS_Lat", "MS_Lon", "MS_Mag", "MS_Depth",
   "MS_Country", "MS_Fault", "MS_location",
   "CS_ID", "CS_Time", "CS_Lat", "CS_Lon", "CS_Mag", "CS_Depth",
   "CS_Country", "CS_Fault", "CS_location",
   "Days_Before_Exact", "Distance_Exact_km"]

/-- Python `round` to an integer: round half to even (bankers rounding). -/
def roundHalfEven {K : Type} [LinearOrderedField K] [FloorRing K] (y : K) : ℤ :=
  if y - (⌊y⌋ : K) < 1 / 2 then ⌊y⌋
  else if 1 / 2 < y - (⌊y⌋ : K) then ⌊y⌋ + 1
  else if ⌊y⌋ % 2 = 0 then ⌊y⌋ else ⌊y⌋ + 1

/-- Python `round(x, n)`: round half to even at the n-th decimal place,
idealised on exact values (source lines 193-194). -/
def roundTo {K : Type} [LinearOrderedField K] [FloorRing K] (n : ℕ) (x : K) : K :=
  ((roundHalfEven (x * 10 ^ n) : K)) / 10 ^ n

/-- The filter `df["type"].astype(str).str.strip().str.lower() == "earthquake"`
of source line 105. -/
def filter_earthquakes {K : Type} (events : List (Event K)) : List (Event K) :=
  events.filter (fun e => normalizeStr e.type == "earthquake")

/-- The country filter of source lines 108-112.  Python applies the filter
only when `country_to_filter` is truthy, so `none` and the empty string both
mean no restriction.  The `notna` conjunct of line 110 is always true here
because `country` is one of the dropna-required columns.  Note that the
source strips and lowers the event value but only lowers the filter value. -/
def filter_by_country {K : Type} (events : List (Event K))
    (country_to_filter : Option String) : List (Event K) :=
  match country_to_filter with
  | none => events
  | some c =>
    if c.isEmpty then events
    else events.filter (fun e => normalizeStr e.country == strLower c)

/-- The working set: event-type filter then optional country filter
(source lines 105-112). -/
def working_set {K : Type} (events : List (Event K))
    (country_to_filter : Option String) : List (Event K) :=
  filter_by_country (filter_earthquakes events) country_to_filter

/-- Mainshock selection `df_earthquakes["mag"] >= min_mag_mainshock_script`
(source line 117). -/
def mainshocks {K : Type} [LinearOrderedField K] (working : List (Event K))
    (min_mag : K) : List (Event K) :=
  working.filter (fun e => decide (min_mag ≤ e.mag))

/-- The temporal candidate filter of source lines 155-162:
`time >= ms_time - timedelta(days=max_days_before)`, `time < ms_time`,
`ID != ms_id`. -/
def temporal_candidates {K : Type} (working : List (Event K))
    (reference_time : ℚ) (max_days_before : ℚ) (exclude_id : Int) : List (Event K) :=
  working.filter (fun c =>
    decide (reference_time - max_days_before * 86400 ≤ c.time) &&
    decide (c.time < reference_time) &&
    decide (c.ID ≠ exclude_id))

/-- Snapshot of one qualifying pair, the dict appended at source
lines 184-195: `days_before = (ms_time - cs_time).total_seconds() / (24*60*60)`
rounded to 4 decimals, the distance rounded to 2 decimals. -/
def mkRow {K : Type} [LinearOrderedField K] [FloorRing K] (m c : Event K)
    (distance : K) : Row K :=
  { MS_ID := m.ID, MS_Time := m.time, MS_Lat := m.latitude, MS_Lon := m.longitude,
    MS_Mag := m.mag, MS_Depth := m.depth, MS_Country := m.country,
    MS_Fault := m.fault, MS_location := m.location,
    CS_ID := c.ID, CS_Time := c.time, CS_Lat := c.latitude, CS_Lon := c.longitude,
    CS_Mag := c.mag, CS_Depth := c.depth, CS_Country := c.country,
    CS_Fault := c.fault, CS_location := c.location,
    Days_Before_Exact := roundTo 4 ((m.time - c.time) / (24 * 60 * 60)),
    Distance_Exact_km := roundTo 2 distance }

/-- Pair evaluation, source lines 176-195: keep the candidate only when
`distance <= max_search_radius_km_script`, the threshold being tested on the
unrounded distance. -/
def evaluate_pair {K : Type} [LinearOrderedField K] [FloorRing K]
    (dist : K → K → K → K → K) (max_radius_km : K) (m c : Event K) : Option (Row K) :=
  if dist m.latitude m.longitude c.latitude c.longitude ≤ max_radius_km then
    some (mkRow m c (dist m.latitude m.longitude c.latitude c.longitude))
  else none

/-- The pairing engine, source lines 117-195: the double loop over potential
mainshocks and their temporal candidates, both drawn from the working set. -/
def find_pairs {K : Type} [LinearOrderedField K] [FloorRing K]
    (dist : K → K → K → K → K) (events : List (Event K)) (min_mainshock_mag : K)
    (max_days_before : ℚ) (max_radius_km : K)
    (country_to_filter : Option String) : List (Row K) :=
  (mainshocks (working_set events country_to_filter) min_mainshock_mag).flatMap
    (fun m =>
      (temporal_candidates (working_set events country_to_filter)
          m.time max_days_before m.ID).filterMap
        (evaluate_pair dist max_radius_km m))

/-- One raw CSV record after the coercions of source lines 57 and 77-79:
`none` marks a missing or unparseable cell (or an absent column).  A `Csv`
value is well formed when every field whose column is absent from
`columns` is `none`. -/
structure RawRecord (K : Type) where
  ID : Option Int
  time : Option ℚ
  latitude : Option K
  longitude : Option K
  mag : Option K
  depth : Option K
  type : Option String
  country : Option String
  fault : Option String
  location : Option String
deriving DecidableEq

/-- A parsed tabular input file: the column names and the coerced records. -/
structure Csv (K : Type) where
  columns : List String
  records : List (RawRecord K)
deriving DecidableEq

/-- Observable outcome of one run of the script: an early return with a
printed load error (no output file), an uncaught exception (no output file),
or an output file with its header and data rows. -/
inductive RunResult (K : Type) where
  | loadFailed (msg : String)
  | crashed
  | wrote (header : List String) (rows : List (Row K))
deriving DecidableEq

/-- The rename of source lines 63-64: when a lowercase `id` column is present
and no `ID` column is, `id` is renamed to `original_event_id`. -/
def rename_id_column (cols : List String) : List String :=
  if "id" ∈ cols ∧ "ID" ∉ cols then
    cols.map (fun c => if c == "id" then "original_event_id" else c)
  else cols

/-- The required columns of source line 85 (the numeric `ID` is checked
separately at lines 86-90). -/
def required_cols : List String :=
  ["time", "latitude", "longitude", "mag", "type", "country"]

/-- Row validation: `dropna(subset=required_cols_for_analysis)` at source
line 98 keeps a record only when every required field parsed. -/
def to_event {K : Type} (r : RawRecord K) : Option (Event K) :=
  match r.ID, r.time, r.latitude, r.longitude, r.mag, r.type, r.country with
  | some i, some t, some la, some lo, some mg, some ty, some co =>
    some { ID := i, time := t, latitude := la, longitude := lo, mag := mg,
           depth := r.depth, type := ty, country := co,
           fault := r.fault, location := r.location }
  | _, _, _, _, _, _, _ => none

/-- The validated event store loaded from a CSV. -/
def load_events {K : Type} (csv : Csv K) : List (Event K) :=
  csv.records.filterMap to_event

/-- The whole script `calcola_dettagli_completi_sciami` (source lines 22-204).
`input` is the outcome of `pd.read_csv` inside the try block of lines 34-54:
`Except.error` for a missing or unreadable file.  Line 57 indexes the `time`
column before any check, so its absence is an uncaught `KeyError`
(`crashed`).  The checks of lines 63-96 reject a file without a numeric `ID`
column or without the required columns, printing an error and returning with
no output file.  When no potential mainshock exists, lines 129-133 write a
header-only output and return; otherwise lines 135-202 run the pair search
and write the pairs found.  No threshold parameter is ever validated. -/
def calcola_dettagli_completi_sciami {K : Type} [LinearOrderedField K] [FloorRing K]
    (dist : K → K → K → K → K) (input : Except String (Csv K))
    (min_mag_mainshock_script : K) (max_days_before_script : ℚ)
    (max_search_radius_km_script : K)
    (country_to_filter : Option String) : RunResult K :=
  match input with
  | Except.error e => RunResult.loadFailed e
  | Except.ok csv =>
    if "time" ∈ csv.columns then
      let cols := rename_id_column csv.columns
      if "ID" ∈ cols then
        if required_cols.all (fun c => decide (c ∈ cols)) then
          let events := load_events csv
          if (mainshocks (working_set events country_to_filter)
              min_mag_mainshock_script).isEmpty then
            RunResult.wrote output_columns []
          else
            RunResult.wrote output_columns
              (find_pairs dist events min_mag_mainshock_script
                max_days_before_script max_search_radius_km_script country_to_filter)
        else RunResult.loadFailed "Colonne richieste mancanti nel file di input"
      else RunResult.loadFailed
        "Colonna ID numerica richiesta per analisi non trovata o non definita"
    else RunResult.crashed

/-- Python `math.radians` (source line 13). -/
noncomputable def radians (x : ℝ) : ℝ :=
  x * (Real.pi / 180)

/-- Python `math.atan2 y x`, the argument of the complex number with real
part `x` and imaginary part `y`. -/
noncomputable def atan2 (y x : ℝ) : ℝ :=
  Complex.arg ⟨x, y⟩

/-- The haversine great-circle distance of source lines 7-20, on a sphere of
radius 6371 km. -/
noncomputable def haversine (lat1 lon1 lat2 lon2 : ℝ) : ℝ :=
  let R : ℝ := 6371
  let lat1_rad := radians lat1
  let lon1_rad := radians lon1
  let lat2_rad := radians lat2
  let lon2_rad := radians lon2
  let dlon := lon2_rad - lon1_rad
  let dlat := lat2_rad - lat1_rad
  let a := Real.sin (dlat / 2) ^ 2 +
    Real.cos lat1_rad * Real.cos lat2_rad * Real.sin (dlon / 2) ^ 2
  let c := 2 * atan2 (Real.sqrt a) (Real.sqrt (1 - a))
  R * c

/-! Helper lemmas shared by the claim theorems. -/

lemma mem_filter_earthquakes {K : Type} (events : List (Event K)) (e : Event K) :
    e ∈ filter_earthquakes events ↔ e ∈ events ∧ normalizeStr e.type = "earthquake" := by
  simp [filter_earthquakes, List.mem_filter]

lemma mem_filter_by_country {K : Type} (events : List (Event K))
    (cf : Option String) (e : Event K) :
    e ∈ filter_by_country events cf ↔
      e ∈ events ∧ ∀ s, cf = some s → s.isEmpty = false →
        normalizeStr e.country = strLower s := by
  cases cf with
  | none => simp [filter_by_country]
  | some s =>
    by_cases hs : s.isEmpty
    · simp [filter_by_country, hs]
    · simp only [filter_by_country, if_neg hs, List.mem_filter, beq_iff_eq,
        Option.some.injEq]
      constructor
      · rintro ⟨h1, h2⟩
        exact ⟨h1, fun t ht _ => ht ▸ h2⟩
      · rintro ⟨h1, h2⟩
        exact ⟨h1, h2 s rfl (Bool.eq_false_iff.2 hs)⟩

lemma mem_working_set {K : Type} (events : List (Event K))
    (cf : Option String) (e : Event K) :
    e ∈ working_set events cf ↔
      e ∈ events ∧ normalizeStr e.type = "earthquake" ∧
        ∀ s, cf = some s → s.isEmpty = false →
          normalizeStr e.country = strLower s := by
  simp [working_set, mem_filter_by_country, mem_filter_earthquakes, and_assoc,
    and_comm, and_left_comm]

lemma mem_temporal_candidates {K : Type} (working : List (Event K))
    (T W : ℚ) (i : Int) (e : Event K) :
    e ∈ temporal_candidates working T W i ↔
      e ∈ working ∧ T - W * 86400 ≤ e.time ∧ e.time < T ∧ e.ID ≠ i := by
  simp [temporal_candidates, List.mem_filter, and_assoc]

lemma evaluate_pair_eq_some {K : Type} [LinearOrderedField K] [FloorRing K]
    (dist : K → K → K → K → K) (r : K) (m c : Event K) (row : Row K) :
    evaluate_pair dist r m c = some row ↔
      dist m.latitude m.longitude c.latitude c.longitude ≤ r ∧
        mkRow m c (dist m.latitude m.longitude c.latitude c.longitude) = row := by
  unfold evaluate_pair
  split <;> simp_all

lemma evaluate_pair_isSome {K : Type} [LinearOrderedField K] [FloorRing K]
    (dist : K → K → K → K → K) (r : K) (m c : Event K) :
    (evaluate_pair dist r m c).isSome = true ↔
      dist m.latitude m.longitude c.latitude c.longitude ≤ r := by
  unfold evaluate_pair
  split <;> simp_all

lemma mem_find_pairs {K : Type} [LinearOrderedField K] [FloorRing K]
    (dist : K → K → K → K → K) (events : List (Event K)) (mm : K) (W : ℚ)
    (r : K) (cf : Option String) (row : Row K) :
    row ∈ find_pairs dist events mm W r cf ↔
      ∃ m ∈ working_set events cf, ∃ c ∈ working_set events cf,
        mm ≤ m.mag ∧
        m.time - W * 86400 ≤ c.time ∧ c.time < m.time ∧ c.ID ≠ m.ID ∧
        dist m.latitude m.longitude c.latitude c.longitude ≤ r ∧
        mkRow m c (dist m.latitude m.longitude c.latitude c.longitude) = row := by
  simp only [find_pairs, List.mem_flatMap, List.mem_filterMap, mainshocks,
    List.mem_filter, decide_eq_true_eq, mem_temporal_candidates,
    evaluate_pair_eq_some]
  constructor
  · rintro ⟨m, ⟨hmw, hmag⟩, c, ⟨hcw, hwin1, hwin2, hid⟩, hd, hrow⟩
    exact ⟨m, hmw, c, hcw, hmag, hwin1, hwin2, hid, hd, hrow⟩
  · rintro ⟨m, hmw, c, hcw, hmag, hwin1, hwin2, hid, hd, hrow⟩
    exact ⟨m, ⟨hmw, hmag⟩, c, ⟨hcw, hwin1, hwin2, hid⟩, hd, hrow⟩

lemma atan2_nonneg {y x : ℝ} (h : 0 ≤ y) : 0 ≤ atan2 y x :=
  Complex.arg_nonneg_iff.2 h

lemma haversine_nonneg (lat1 lon1 lat2 lon2 : ℝ) :
    0 ≤ haversine lat1 lon1 lat2 lon2 := by
  unfold haversine
  have h1 : (0:ℝ) ≤ atan2 (Real.sqrt (Real.sin ((radians lat2 - radians lat1) / 2) ^ 2 +
      Real.cos (radians lat1) * Real.cos (radians lat2) *
        Real.sin ((radians lon2 - radians lon1) / 2) ^ 2))
      (Real.sqrt (1 - (Real.sin ((radians lat2 - radians lat1) / 2) ^ 2 +
        Real.cos (radians lat1) * Real.cos (radians lat2) *
          Real.sin ((radians lon2 - radians lon1) / 2) ^ 2))) :=
    atan2_nonneg (Real.sqrt_nonneg _)
  positivity

lemma haversine_self (lat lon : ℝ) : haversine lat lon lat lon = 0 := by
  unfold haversine
  have harg : atan2 (Real.sqrt 0) (Real.sqrt (1 - 0)) = 0 := by
    rw [Real.sqrt_zero, sub_zero, Real.sqrt_one]
    show Complex.arg ⟨1, 0⟩ = 0
    have : (⟨1, 0⟩ : ℂ) = 1 := rfl
    rw [this, Complex.arg_one]
  simp only [sub_self, zero_div, Real.sin_zero, ne_eq, OfNat.ofNat_ne_zero,
    not_false_eq_true, zero_pow, mul_zero, add_zero, zero_add, harg, mul_zero]

lemma length_filterMap_le_of_isSome {α β : Type} (g g' : α → Option β)
    (h : ∀ a, (g a).isSome = true → (g' a).isSome = true) (l : List α) :
    (l.filterMap g).length ≤ (l.filterMap g').length := by
  induction l with
  | nil => simp
  | cons a l ih =>
    cases hg : g a with
    | none =>
      cases hg' : g' a with
      | none => simpa [List.filterMap_cons, hg, hg'] using ih
      | some b =>
        simp only [List.filterMap_cons, hg, hg', List.length_cons]
        exact le_trans ih (Nat.le_succ _)
    | some b =>
      have hs : (g' a).isSome = true := h a (by simp [hg])
      obtain ⟨b', hb'⟩ := Option.isSome_iff_exists.1 hs
      simp only [List.filterMap_cons, hg, hb', List.length_cons]
      exact Nat.succ_le_succ ih

lemma length_flatMap_le {α β : Type} (f g : α → List β)
    (h : ∀ a, (f a).length ≤ (g a).length) (l : List α) :
    (l.flatMap f).length ≤ (l.flatMap g).length := by
  induction l with
  | nil => simp
  | cons a l ih =>
    simp only [List.flatMap_cons, List.length_append]
    exact Nat.add_le_add (h a) ih

lemma temporal_candidates_sublist {K : Type} (working : List (Event K))
    (T : ℚ) {W W' : ℚ} (i : Int) (h : W ≤ W') :
    List.Sublist (temporal_candidates working T W i)
      (temporal_candidates working T W' i) := by
  apply List.monotone_filter_right
  intro c hc
  simp only [Bool.and_eq_true, decide_eq_true_eq] at hc ⊢
  have hww : W * 86400 ≤ W' * 86400 :=
    mul_le_mul_of_nonneg_right h (by norm_num)
  obtain ⟨⟨h1, h2⟩, h3⟩ := hc
  exact ⟨⟨by linarith, h2⟩, h3⟩

lemma working_set_nil {K : Type} (cf : Option String) :
    working_set ([] : List (Event K)) cf = [] := by
  cases cf <;> simp [working_set, filter_earthquakes, filter_by_country]

lemma find_pairs_eq_nil_of_neg_radius (events : List (Event ℝ)) (mm : ℝ)
    (W : ℚ) {r : ℝ} (cf : Option String) (hr : r < 0) :
    find_pairs haversine events mm W r cf = [] := by
  unfold find_pairs
  rw [List.flatMap_eq_nil_iff]
  intro m _
  rw [List.filterMap_eq_nil_iff]
  intro c _
  unfold evaluate_pair
  rw [if_neg]
  exact not_le.2 (lt_of_lt_of_le hr (haversine_nonneg _ _ _ _))

lemma temporal_candidates_eq_nil_of_neg {K : Type} (working : List (Event K))
    (T : ℚ) {W : ℚ} (i : Int) (hW : W < 0) :
    temporal_candidates working T W i = [] := by
  unfold temporal_candidates
  rw [List.filter_eq_nil_iff]
  intro c _
  simp only [Bool.and_eq_true, decide_eq_true_eq, not_and]
  intro h1 _
  have hpos : 0 < -(W * 86400) := by
    have : W * 86400 < 0 := mul_neg_of_neg_of_pos hW (by norm_num)
    linarith
  exact absurd h1.2 (by linarith [h1.1])

/-! Concrete fixtures used by witnesses and counterexamples. -/

/-- Degenerate distance function used to run the engine on rational inputs. -/
def dist0 : ℚ → ℚ → ℚ → ℚ → ℚ := fun _ _ _ _ => 0

/-- A mainshock-grade event, 29 days after the epoch. -/
def E1 : Event ℚ :=
  { ID := 1, time := 2505600, latitude := 0, longitude := 0, mag := 5,
    depth := none, type := "earthquake", country := "Italy",
    fault := none, location := none }

/-- A small event 600 seconds before `E1`, inside its 29-day window. -/
def E2 : Event ℚ :=
  { ID := 2, time := 2505000, latitude := 1, longitude := 1, mag := 2,
    depth := none, type := "earthquake", country := "Italy",
    fault := none, location := none }

lemma ws_fix : working_set [E1, E2] none = [E1, E2] := by decide

lemma ms_fix : mainshocks [E1, E2] (3 : ℚ) = [E1] := by decide

lemma tc_fix : temporal_candidates [E1, E2] E1.time 29 E1.ID = [E2] := by
  simp only [temporal_candidates, List.filter_cons, List.filter_nil,
    Bool.and_eq_true, decide_eq_true_eq, E1, E2]
  norm_num

lemma ep_fix : evaluate_pair dist0 500 E1 E2 = some (mkRow E1 E2 0) := by
  unfold evaluate_pair dist0
  rw [if_pos (by norm_num)]

lemma find_pairs_fixture :
    find_pairs dist0 [E1, E2] 3 29 500 none = [mkRow E1 E2 0] := by
  unfold find_pairs
  rw [ws_fix, ms_fix]
  simp only [List.flatMap_cons, List.flatMap_nil, List.append_nil]
  rw [tc_fix]
  simp only [List.filterMap_cons, List.filterMap_nil, ep_fix]

/-- The standard well-formed header of the analysis input. -/
def csv_cols : List String :=
  ["ID", "time", "latitude", "longitude", "mag", "type", "country"]

/-- A fully parseable mainshock-grade record. -/
def rec_main : RawRecord ℝ :=
  { ID := some 1, time := some 0, latitude := some 42, longitude := some 13,
    mag := some 5, depth := none, type := some "earthquake",
    country := some "Italy", fault := none, location := none }

/-- The event that `rec_main` validates to. -/
def Emain : Event ℝ :=
  { ID := 1, time := 0, latitude := 42, longitude := 13, mag := 5,
    depth := none, type := "earthquake", country := "Italy",
    fault := none, location := none }

/-- A one-event input file with valid columns. -/
def csv_one : Csv ℝ := ⟨csv_cols, [rec_main]⟩

/-- An input file whose single record has an unparseable magnitude, hence
zero parseable rows after validation. -/
def csv_zero : Csv ℝ := ⟨csv_cols, [{ rec_main with mag := none }]⟩

/-- An input file whose identifier column is lowercase `id` instead of `ID`. -/
def csv_lower : Csv ℝ :=
  ⟨["id", "time", "latitude", "longitude", "mag", "type", "country"],
   [{ rec_main with ID := none }]⟩

lemma load_one : load_events csv_one = [Emain] := rfl

lemma ws_one : working_set [Emain] none = [Emain] := rfl

lemma ms_one : mainshocks [Emain] (3 : ℝ) = [Emain] := by
  simp only [mainshocks, List.filter_cons, List.filter_nil, decide_eq_true_eq, Emain]
  norm_num

lemma tc_one : temporal_candidates [Emain] Emain.time 29 Emain.ID = [] := by
  simp only [temporal_candidates, List.filter_cons, List.filter_nil,
    Bool.and_eq_true, decide_eq_true_eq, Emain]
  norm_num

lemma fp_one : find_pairs haversine [Emain] 3 29 (-1) none = [] := by
  unfold find_pairs
  rw [ws_one, ms_one]
  simp only [List.flatMap_cons, List.flatMap_nil, List.append_nil]
  rw [tc_one]
  rfl

/-! Claim theorems. -/

/-- C1: the pairing engine outputs exactly the pairs (m, c) with both events
in the working set (type normalises to "earthquake"; when a non-empty
country filter is set, the trimmed, lowered country equals the lowered
filter), `min_mainshock_mag ≤ m.mag`, c strictly before m but no more than
`max_days_before` days before, `c.ID ≠ m.ID`, and haversine distance at most
`max_radius_km`; every output row is the snapshot of such a pair and no
other row is emitted.  (Python truthiness makes an empty-string filter mean
"no restriction", which the quantified country condition reflects.) -/
theorem find_pairs_exact_characterization (events : List (Event ℝ)) (mm : ℝ)
    (W : ℚ) (r : ℝ) (cf : Option String) (row : Row ℝ) :
    row ∈ find_pairs haversine events mm W r cf ↔
      ∃ m c : Event ℝ,
        (m ∈ events ∧ normalizeStr m.type = "earthquake" ∧
          (∀ s, cf = some s → s.isEmpty = false →
            normalizeStr m.country = strLower s)) ∧
        (c ∈ events ∧ normalizeStr c.type = "earthquake" ∧
          (∀ s, cf = some s → s.isEmpty = false →
            normalizeStr c.country = strLower s)) ∧
        mm ≤ m.mag ∧
        m.time - W * 86400 ≤ c.time ∧ c.time < m.time ∧ c.ID ≠ m.ID ∧
        haversine m.latitude m.longitude c.latitude c.longitude ≤ r ∧
        mkRow m c (haversine m.latitude m.longitude c.latitude c.longitude) = row := by
  rw [mem_find_pairs]
  constructor
  · rintro ⟨m, hm, c, hc, h1, h2, h3, h4, h5, h6⟩
    exact ⟨m, c, (mem_working_set events cf m).1 hm,
      (mem_working_set events cf c).1 hc, h1, h2, h3, h4, h5, h6⟩
  · rintro ⟨m, c, hmw, hcw, h1, h2, h3, h4, h5, h6⟩
    exact ⟨m, (mem_working_set events cf m).2 hmw,
      c, (mem_working_set events cf c).2 hcw, h1, h2, h3, h4, h5, h6⟩

/-- C2: temporal candidacy is the half-open window
`T - W days ≤ time < T` minus the excluded identifier: an event at exactly
the reference time is excluded, an otherwise eligible event at exactly
`T - W` days is included (for a positive window), anything earlier is
excluded, and an event carrying the excluded id is excluded regardless of
its time. -/
theorem temporal_candidates_halfopen (working : List (Event ℝ)) (T W : ℚ) (i : Int) :
    (∀ e, e ∈ temporal_candidates working T W i ↔
        e ∈ working ∧ T - W * 86400 ≤ e.time ∧ e.time < T ∧ e.ID ≠ i) ∧
    (∀ e : Event ℝ, e.time = T → e ∉ temporal_candidates working T W i) ∧
    (∀ e : Event ℝ, e ∈ working → e.ID ≠ i → 0 < W → e.time = T - W * 86400 →
        e ∈ temporal_candidates working T W i) ∧
    (∀ e : Event ℝ, e.time < T - W * 86400 → e ∉ temporal_candidates working T W i) ∧
    (∀ e : Event ℝ, e.ID = i → e ∉ temporal_candidates working T W i) := by
  refine ⟨fun e => mem_temporal_candidates working T W i e, ?_, ?_, ?_, ?_⟩
  · intro e he hmem
    obtain ⟨-, -, hlt, -⟩ := (mem_temporal_candidates working T W i e).1 hmem
    rw [he] at hlt
    exact absurd hlt (lt_irrefl T)
  · intro e hw hid hW he
    refine (mem_temporal_candidates working T W i e).2 ⟨hw, le_of_eq he.symm, ?_, hid⟩
    have : 0 < W * 86400 := mul_pos hW (by norm_num)
    rw [he]
    linarith
  · intro e hlt hmem
    obtain ⟨-, hge, -, -⟩ := (mem_temporal_candidates working T W i e).1 hmem
    linarith
  · intro e hid hmem
    obtain ⟨-, -, -, hne⟩ := (mem_temporal_candidates working T W i e).1 hmem
    exact hne hid

/-- Witness for C2: a concrete event sitting exactly on the closed lower
bound of a positive window is a temporal candidate. -/
def Elow : Event ℝ :=
  { ID := 2, time := -2505600, latitude := 0, longitude := 0, mag := 1,
    depth := none, type := "earthquake", country := "Italy",
    fault := none, location := none }

theorem temporal_candidates_halfopen_witness :
    Elow ∈ temporal_candidates [Elow] 0 29 5 :=
  (temporal_candidates_halfopen [Elow] 0 29 5).2.2.1 Elow
    (List.mem_singleton.2 rfl) (by decide) (by norm_num) (by norm_num [Elow])

/-- C3 counterexample: a run on a well-formed one-event input with the
out-of-domain radius -1 does not fail: no ConfigurationError exists in the
code, the pair search executes (the single mainshock is scanned) and the
script succeeds, writing a header-only output. -/
theorem no_configuration_error_counterexample :
    calcola_dettagli_completi_sciami haversine (Except.ok csv_one) 3 29 (-1) none =
      RunResult.wrote output_columns [] := by
  simp only [calcola_dettagli_completi_sciami]
  rw [if_pos (show "time" ∈ csv_one.columns by decide)]
  rw [if_pos (show "ID" ∈ rename_id_column csv_one.columns by decide)]
  rw [if_pos (show required_cols.all
    (fun c => decide (c ∈ rename_id_column csv_one.columns)) = true by decide)]
  rw [load_one, ws_one, ms_one]
  rw [if_neg (by decide : ¬ (([Emain] : List (Event ℝ)).isEmpty = true))]
  rw [fp_one]

/-- C3 amended: the script validates no threshold parameter.  A run with a
negative `max_radius_km` or a negative `max_days_before` proceeds normally
and the pair search returns the empty list (every haversine distance is
non-negative, and a negative day window makes the temporal window empty);
no error is raised before or during the computation. -/
theorem no_configuration_error_amended (events : List (Event ℝ)) (mm : ℝ)
    (W : ℚ) (r : ℝ) (cf : Option String) :
    (r < 0 → find_pairs haversine events mm W r cf = []) ∧
    (W < 0 → find_pairs haversine events mm W r cf = []) := by
  constructor
  · exact fun hr => find_pairs_eq_nil_of_neg_radius events mm W cf hr
  · intro hW
    unfold find_pairs
    rw [List.flatMap_eq_nil_iff]
    intro m _
    rw [temporal_candidates_eq_nil_of_neg _ _ _ hW]
    rfl

/-- Witness for the amended C3 at the concrete thresholds -1. -/
theorem no_configuration_error_amended_witness :
    find_pairs haversine [] 3 29 (-1) none = [] ∧
    find_pairs haversine [] 3 (-1) 500 none = [] :=
  ⟨(no_configuration_error_amended [] 3 29 (-1) none).1 (by norm_num),
   (no_configuration_error_amended [] 3 (-1) 500 none).2 (by norm_num)⟩

/-- C4 counterexample: an input whose only record fails validation (zero
parseable rows) does not produce a LoadError: the run succeeds and a
header-only output artifact is written, contradicting the claim that no
output (not even a header-only file) is produced. -/
theorem zero_rows_not_fatal_counterexample :
    calcola_dettagli_completi_sciami haversine (Except.ok csv_zero) 3 29 500 none =
      RunResult.wrote output_columns [] ∧
    ∀ msg, calcola_dettagli_completi_sciami haversine (Except.ok csv_zero) 3 29 500 none ≠
      RunResult.loadFailed msg := by
  constructor
  · rfl
  · intro msg h
    rw [show calcola_dettagli_completi_sciami haversine (Except.ok csv_zero) 3 29 500 none =
      RunResult.wrote output_columns [] from rfl] at h
    exact RunResult.noConfusion h

/-- C4 amended: a missing or unreadable input source is indeed fatal with no
output artifact (the script returns inside the except branch before any
store is built); but zero parseable rows after validation is not fatal: the
run continues with an empty store and writes a header-only output. -/
theorem load_error_amended {K : Type} [LinearOrderedField K] [FloorRing K]
    (dist : K → K → K → K → K) (e : String) (csv : Csv K) (mm : K) (W : ℚ)
    (r : K) (cf : Option String)
    (htime : "time" ∈ csv.columns)
    (hid : "ID" ∈ rename_id_column csv.columns)
    (hreq : required_cols.all (fun c => decide (c ∈ rename_id_column csv.columns)) = true)
    (hzero : load_events csv = []) :
    calcola_dettagli_completi_sciami dist (Except.error e) mm W r cf =
      RunResult.loadFailed e ∧
    calcola_dettagli_completi_sciami dist (Except.ok csv) mm W r cf =
      RunResult.wrote output_columns [] := by
  refine ⟨rfl, ?_⟩
  simp only [calcola_dettagli_completi_sciami]
  rw [if_pos htime, if_pos hid, if_pos hreq, hzero, working_set_nil]
  rw [if_pos (by rfl : (mainshocks ([] : List (Event K)) mm).isEmpty = true)]

/-- Witness for the amended C4 at a concrete unreadable input and a concrete
zero-parseable-row input. -/
theorem load_error_amended_witness :
    calcola_dettagli_completi_sciami haversine
        (Except.error "File di input non trovato") 3 29 500 none =
      RunResult.loadFailed "File di input non trovato" ∧
    calcola_dettagli_completi_sciami haversine (Except.ok csv_zero) 3 29 500 none =
      RunResult.wrote output_columns [] :=
  load_error_amended haversine "File di input non trovato" csv_zero 3 29 500 none
    (by decide) (by decide) (by decide) rfl

/-- C5: the haversine distance of a point to itself is zero, and the
distance is non-negative for all real inputs, hence in particular defined
and finite at every valid latitude/longitude pair, antipodal points
included. -/
theorem haversine_zero_identity_and_nonneg :
    (∀ lat lon : ℝ, haversine lat lon lat lon = 0) ∧
    (∀ lat1 lon1 lat2 lon2 : ℝ, 0 ≤ haversine lat1 lon1 lat2 lon2) :=
  ⟨haversine_self, haversine_nonneg⟩

/-- C6: enlarging the day window and the search radius can only add output
pairs: the number of emitted rows is monotone non-decreasing in
`max_days_before` and in `max_radius_km`. -/
theorem find_pairs_threshold_monotone {K : Type} [LinearOrderedField K]
    [FloorRing K] (dist : K → K → K → K → K) (events : List (Event K)) (mm : K)
    {W W' : ℚ} {r r' : K} (cf : Option String) (hW : W ≤ W') (hr : r ≤ r') :
    (find_pairs dist events mm W r cf).length ≤
      (find_pairs dist events mm W' r' cf).length := by
  unfold find_pairs
  apply length_flatMap_le
  intro m
  calc ((temporal_candidates (working_set events cf) m.time W m.ID).filterMap
          (evaluate_pair dist r m)).length
      ≤ ((temporal_candidates (working_set events cf) m.time W m.ID).filterMap
          (evaluate_pair dist r' m)).length := by
        apply length_filterMap_le_of_isSome
        intro c hc
        rw [evaluate_pair_isSome] at hc ⊢
        exact le_trans hc hr
    _ ≤ ((temporal_candidates (working_set events cf) m.time W' m.ID).filterMap
          (evaluate_pair dist r' m)).length :=
        ((temporal_candidates_sublist (working_set events cf) m.time m.ID hW).filterMap
          _).length_le

/-- Witness for C6 at concrete thresholds 20 ≤ 29 days and 400 ≤ 500 km. -/
theorem find_pairs_threshold_monotone_witness :
    (find_pairs dist0 [E1, E2] 3 20 400 none).length ≤
      (find_pairs dist0 [E1, E2] 3 29 500 none).length :=
  find_pairs_threshold_monotone dist0 [E1, E2] 3 none (by norm_num) (by norm_num)

/-- C7: when the loaded store yields no potential mainshock (in particular
when the working set holds no earthquake-typed event), the engine yields the
empty pair sequence, the run is a success rather than an error, and the
writer still emits the header-only output with zero data rows (the explicit
early-return branch of source lines 129-133). -/
theorem empty_mainshocks_header_only {K : Type} [LinearOrderedField K]
    [FloorRing K] (dist : K → K → K → K → K) (csv : Csv K) (mm : K) (W : ℚ)
    (r : K) (cf : Option String)
    (htime : "time" ∈ csv.columns)
    (hid : "ID" ∈ rename_id_column csv.columns)
    (hreq : required_cols.all (fun c => decide (c ∈ rename_id_column csv.columns)) = true)
    (hmains : mainshocks (working_set (load_events csv) cf) mm = []) :
    calcola_dettagli_completi_sciami dist (Except.ok csv) mm W r cf =
      RunResult.wrote output_columns [] ∧
    find_pairs dist (load_events csv) mm W r cf = [] := by
  constructor
  · simp only [calcola_dettagli_completi_sciami]
    rw [if_pos htime, if_pos hid, if_pos hreq, hmains]
    rw [if_pos (by rfl : (([] : List (Event K))).isEmpty = true)]
  · unfold find_pairs
    rw [hmains]
    rfl

/-- Input file whose single record is a quarry blast, not an earthquake:
the working set is empty. -/
def csv_expl : Csv ℚ :=
  ⟨csv_cols,
   [{ ID := some 1, time := some 0, latitude := some 0, longitude := some 0,
      mag := some 5, depth := none, type := some "explosion",
      country := some "Italy", fault := none, location := none }]⟩

/-- Witness for C7 on a store with zero earthquake-typed events. -/
theorem empty_mainshocks_header_only_witness :
    calcola_dettagli_completi_sciami dist0 (Except.ok csv_expl) 3 29 500 none =
      RunResult.wrote output_columns [] ∧
    find_pairs dist0 (load_events csv_expl) 3 29 500 none = [] :=
  empty_mainshocks_header_only dist0 csv_expl 3 29 500 none
    (by decide) (by decide) (by decide) (by decide)

/-- C8: every emitted row carries `days_before` equal to the exact
mainshock-minus-candidate elapsed time in fractional days
(`total_seconds / (24*60*60)`, exact to sub-second precision) rounded to 4
decimal places, and the distance rounded to 2 decimal places, while the
radius threshold was tested on the unrounded distance. -/
theorem row_rounding_and_threshold {K : Type} [LinearOrderedField K]
    [FloorRing K] (dist : K → K → K → K → K) (events : List (Event K)) (mm : K)
    (W : ℚ) (r : K) (cf : Option String) (row : Row K)
    (h : row ∈ find_pairs dist events mm W r cf) :
    ∃ m c : Event K, m ∈ working_set events cf ∧ c ∈ working_set events cf ∧
      row.MS_Time = m.time ∧ row.CS_Time = c.time ∧
      row.Days_Before_Exact = roundTo 4 ((m.time - c.time) / (24 * 60 * 60)) ∧
      row.Distance_Exact_km =
        roundTo 2 (dist m.latitude m.longitude c.latitude c.longitude) ∧
      dist m.latitude m.longitude c.latitude c.longitude ≤ r := by
  obtain ⟨m, hmw, c, hcw, -, -, -, -, hd, hrow⟩ :=
    (mem_find_pairs dist events mm W r cf row).1 h
  subst hrow
  exact ⟨m, c, hmw, hcw, rfl, rfl, rfl, rfl, hd⟩

/-- Witness for C8 on the concrete pair (E1, E2). -/
theorem row_rounding_and_threshold_witness :
    ∃ m c : Event ℚ, m ∈ working_set [E1, E2] none ∧ c ∈ working_set [E1, E2] none ∧
      (mkRow E1 E2 0).MS_Time = m.time ∧ (mkRow E1 E2 0).CS_Time = c.time ∧
      (mkRow E1 E2 0).Days_Before_Exact =
        roundTo 4 ((m.time - c.time) / (24 * 60 * 60)) ∧
      (mkRow E1 E2 0).Distance_Exact_km =
        roundTo 2 (dist0 m.latitude m.longitude c.latitude c.longitude) ∧
      dist0 m.latitude m.longitude c.latitude c.longitude ≤ 500 :=
  row_rounding_and_threshold dist0 [E1, E2] 3 29 500 none (mkRow E1 E2 0)
    (by rw [find_pairs_fixture]; exact List.mem_singleton.2 rfl)

/-- C9 counterexample: the concrete file whose identifier column is the
lowercase `id` is rejected, not accepted: the column is renamed to
`original_event_id` (source line 64) and the run then fails at the numeric
`ID` requirement (source lines 86-90), so `id` is not an alias of `ID`. -/
theorem lowercase_id_rejected_counterexample :
    calcola_dettagli_completi_sciami haversine (Except.ok csv_lower) 3 29 500 none =
      RunResult.loadFailed
        "Colonna ID numerica richiesta per analisi non trovata o non definita" := rfl

/-- C9 amended: a file whose event-identifier column is named `id` with no
`ID` column present is never accepted: the loader renames `id` to
`original_event_id` and then fails with the missing-numeric-ID error before
any pairing; only a column literally named `ID` satisfies the requirement. -/
theorem lowercase_id_rejected_amended {K : Type} [LinearOrderedField K]
    [FloorRing K] (dist : K → K → K → K → K) (csv : Csv K) (mm : K) (W : ℚ)
    (r : K) (cf : Option String)
    (hid : "id" ∈ csv.columns) (hID : "ID" ∉ csv.columns)
    (htime : "time" ∈ csv.columns) :
    calcola_dettagli_completi_sciami dist (Except.ok csv) mm W r cf =
      RunResult.loadFailed
        "Colonna ID numerica richiesta per analisi non trovata o non definita" := by
  have hren : "ID" ∉ rename_id_column csv.columns := by
    unfold rename_id_column
    rw [if_pos ⟨hid, hID⟩]
    intro hmem
    obtain ⟨c, hc, hceq⟩ := List.mem_map.1 hmem
    by_cases h : (c == "id") = true
    · rw [if_pos h] at hceq
      exact absurd hceq (by decide)
    · rw [if_neg h] at hceq
      exact hID (hceq ▸ hc)
  simp only [calcola_dettagli_completi_sciami]
  rw [if_pos htime, if_neg hren]

/-- Witness for the amended C9 at the concrete lowercase-id file. -/
theorem lowercase_id_rejected_amended_witness :
    calcola_dettagli_completi_sciami haversine (Except.ok csv_lower) 3 29 500 (some "Italy") =
      RunResult.loadFailed
        "Colonna ID numerica richiesta per analisi non trovata o non definita" :=
  lowercase_id_rejected_amended haversine csv_lower 3 29 500 (some "Italy")
    (by decide) (by decide) (by decide)

/-- C10: candidate exclusion compares identifier values (source line 161),
so no output row ever carries equal mainshock and candidate identifiers:
two distinct events sharing one id can never appear as each other's
candidate, whatever their times and locations. -/
theorem no_pair_with_equal_ids {K : Type} [LinearOrderedField K] [FloorRing K]
    (dist : K → K → K → K → K) (events : List (Event K)) (mm : K) (W : ℚ)
    (r : K) (cf : Option String) (row : Row K)
    (h : row ∈ find_pairs dist events mm W r cf) :
    row.CS_ID ≠ row.MS_ID := by
  obtain ⟨m, -, c, -, -, -, -, hid, -, hrow⟩ :=
    (mem_find_pairs dist events mm W r cf row).1 h
  subst hrow
  exact hid

/-- Witness for C10 on the concrete emitted pair (E1, E2). -/
theorem no_pair_with_equal_ids_witness :
    (mkRow E1 E2 0).CS_ID ≠ (mkRow E1 E2 0).MS_ID :=
  no_pair_with_equal_ids dist0 [E1, E2] 3 29 500 none (mkRow E1 E2 0)
    (by rw [find_pairs_fixture]; exact List.mem_singleton.2 rfl)
